import Mathlib

/-!
Verification of the "report a found identification document" form feature
(repository creat233/finders-rewards-identity).

Shallow embedding of the two source files:
- `src/components/card-report/PhotoUpload.tsx`: the photo picker widget and
  its `validateAndHandleFile` validation routine;
- the `SignalerCarte` page (form schema, `onSubmit` submission workflow,
  `handleFileChange`, mounted guard).

Effects performed by the code (toasts, storage upload, database insert,
navigation, state mutation) are modelled as an explicit trace of `Effect`
values; the results of the external collaborators (auth, storage, database)
and the readings of the `mounted.current` flag at each suspension point are
inputs collected in `Env`.
-/

/-- A JS `File` as the code consumes it: `file.name`, `file.type` (MIME type),
`file.size` (bytes). -/
structure JsFile where
  name : String
  type : String
  size : Nat
deriving DecidableEq

/-- A toast notification as produced by `toast({ title, description, variant })`;
`destructive` records `variant: "destructive"`. -/
structure Toast where
  title : String
  description : String
  destructive : Bool
deriving DecidableEq

/-- The synthetic event `PhotoUpload.validateAndHandleFile` constructs before
invoking `onFileChange`: `\x7b target: \x7b files: [file] \x7d \x7d`. -/
structure SyntheticEvent where
  targetFiles : List JsFile
deriving DecidableEq

/-- The record inserted into the `reported_cards` table by `onSubmit`. -/
structure ReportRecord where
  reporter_id : String
  card_number : String
  location : String
  found_date : String
  description : Option String
  photo_url : Option String
  document_type : String
deriving DecidableEq

/-- The form values validated by `formSchema` (description is `.optional()`,
modelled as `Option String`; `none` is an absent field). -/
structure FormValues where
  documentType : String
  cardNumber : String
  location : String
  foundDate : String
  description : Option String
deriving DecidableEq

/-- Observable effects of the code, in program order. -/
inductive Effect where
  | toast (t : Toast)
  | authGetUser
  | storageUpload (bucket : String) (path : String) (f : JsFile)
  | storageGetPublicUrl (bucket : String) (path : String)
  | dbInsert (r : ReportRecord)
  | navigate (route : String)
  | consoleError
  | setSubmitting (b : Bool)
deriving DecidableEq

/-- `allowedTypes` from `validateAndHandleFile`. -/
def allowedTypes : List String := ["image/jpeg", "image/png", "image/jpg"]

/-- `maxSize = 5 * 1024 * 1024` from `validateAndHandleFile`. -/
def maxSize : Nat := 5 * 1024 * 1024

/-- Rejection reasons of the file validator (spec §4.1). -/
inductive RejectReason where
  | unsupportedType
  | tooLarge
deriving DecidableEq

/-- Accept/Reject outcome of the file validator (spec §4.1). -/
inductive FileValidation where
  | accept
  | reject (r : RejectReason)
deriving DecidableEq

/-- The decision part of `validateAndHandleFile`: the type check
(`!allowedTypes.includes(file.type)`) runs first, then the size check
(`file.size > maxSize`). -/
def validateFile (f : JsFile) : FileValidation :=
  if f.type ∉ allowedTypes then
    FileValidation.reject RejectReason.unsupportedType
  else if f.size > maxSize then
    FileValidation.reject RejectReason.tooLarge
  else
    FileValidation.accept

/-- Toast shown by `validateAndHandleFile` on an unsupported type. -/
def unsupportedTypeToast : Toast :=
  ⟨"Type de fichier non supporté",
   "Veuillez sélectionner une image au format JPG ou PNG", true⟩

/-- Toast shown by `validateAndHandleFile` on an oversized file. -/
def tooLargeToast : Toast :=
  ⟨"Fichier trop volumineux",
   "La taille du fichier ne doit pas dépasser 5MB", true⟩

/-- `validateAndHandleFile` from `PhotoUpload.tsx`: emits a destructive toast
and returns (no callback) on a failed check; otherwise wraps the file in a
synthetic change event and passes it to `onFileChange`. Result: the emitted
effects and the argument the callback is invoked with (`none` = not invoked). -/
def validateAndHandleFile (f : JsFile) : List Effect × Option SyntheticEvent :=
  if f.type ∉ allowedTypes then
    ([Effect.toast unsupportedTypeToast], none)
  else if f.size > maxSize then
    ([Effect.toast tooLargeToast], none)
  else
    ([], some ⟨[f]⟩)

/-- `handleDrop` from `PhotoUpload.tsx`: takes `e.dataTransfer.files[0]` and,
when present, runs `validateAndHandleFile` on it. -/
def handleDrop (files : List JsFile) : List Effect × Option SyntheticEvent :=
  match files with
  | [] => ([], none)
  | f :: _ => validateAndHandleFile f

/-- `handleFileInputChange` from `PhotoUpload.tsx`: takes `e.target.files?.[0]`
and, when present, runs `validateAndHandleFile` on it. -/
def handleFileInputChange (files : List JsFile) : List Effect × Option SyntheticEvent :=
  match files with
  | [] => ([], none)
  | f :: _ => validateAndHandleFile f

/-- The runtime value held by the page's `file` state (`useState<File | null>`).
Because `handleFileChange` stores whatever value it is called with, the slot can
end up holding the synthetic event object the widget actually passes, so the
model is the JS value union, not just `Option JsFile`. -/
inductive FileSlot where
  | noFile
  | attached (f : JsFile)
  | eventObject (e : SyntheticEvent)
deriving DecidableEq

/-- `handleFileChange` from the `SignalerCarte` page: `if (mounted.current)
setFile(newFile)`. At runtime it stores its argument unchanged. -/
def handleFileChange (mounted : Bool) (newFile : FileSlot) (st : FileSlot) : FileSlot :=
  if mounted then newFile else st

/-- Composition of the widget with the page as wired in the render
(`onFileChange = handleFileChange`): when `validateAndHandleFile` invokes the
callback, the argument that arrives at `handleFileChange` is the synthetic
event object. Returns the widget's effects and the page's new `file` state. -/
def attachViaWidget (mounted : Bool) (st : FileSlot) (f : JsFile) :
    List Effect × FileSlot :=
  match validateAndHandleFile f with
  | (effs, none) => (effs, st)
  | (effs, some ev) => (effs, handleFileChange mounted (FileSlot.eventObject ev) st)

/-- Filter keeping only network writes (object-storage uploads and database
inserts). -/
def networkWrites (tr : List Effect) : List Effect :=
  tr.filter fun e =>
    match e with
    | Effect.storageUpload _ _ _ => true
    | Effect.dbInsert _ => true
    | _ => false

/-- C1: the validator rejects any MIME type outside the allow-list regardless
of size; on an allow-listed type it rejects sizes above 5,242,880 bytes and
accepts sizes at or below it; the type check runs before the size check. -/
theorem C1_file_validator (f : JsFile) :
    (f.type ∉ allowedTypes →
      validateFile f = FileValidation.reject RejectReason.unsupportedType) ∧
    (f.type ∈ allowedTypes →
      (f.size > 5242880 → validateFile f = FileValidation.reject RejectReason.tooLarge) ∧
      (f.size ≤ 5242880 → validateFile f = FileValidation.accept)) := by
  refine ⟨fun h => ?_, fun h => ⟨fun hs => ?_, fun hs => ?_⟩⟩ <;>
    simp [validateFile, maxSize, h]
  · omega
  · omega

/-- Witness for C1 at concrete files: a 6 MB GIF is rejected for its type, a
6 MB JPEG for its size, and a small PNG is accepted. -/
theorem C1_file_validator_witness :
    validateFile ⟨"a.gif", "image/gif", 6000000⟩ =
        FileValidation.reject RejectReason.unsupportedType ∧
    validateFile ⟨"b.jpg", "image/jpeg", 6000000⟩ =
        FileValidation.reject RejectReason.tooLarge ∧
    validateFile ⟨"c.png", "image/png", 1024⟩ = FileValidation.accept :=
  ⟨(C1_file_validator _).1 (by decide),
   ((C1_file_validator _).2 (by decide)).1 (by decide),
   ((C1_file_validator _).2 (by decide)).2 (by decide)⟩

/-- Results of the external collaborators and the readings of the
`mounted.current` ref at each point where `onSubmit` consults it. The three
mounted fields are the values of the single mutable flag at the entry check,
at the pre-navigation check and at the `finally` check; teardown during an
await makes a later reading `false`. -/
structure Env where
  mountedAtEntry : Bool
  mountedAtNav : Bool
  mountedAtFinally : Bool
  authUser : Option String
  uploadError : Bool
  publicUrl : String
  insertError : Bool
  randomName : String
deriving DecidableEq

/-- The page state `onSubmit` can read or mutate: the in-flight flag
(`isSubmitting`), the attached file and the form field values. -/
structure SubmitState where
  isSubmitting : Bool
  file : Option JsFile
  values : FormValues
deriving DecidableEq

/-- Terminal outcome of one `onSubmit` run (spec §4.4 and §7 taxonomy). -/
inductive Outcome where
  | success
  | errUnauthenticated
  | errUpload
  | errInsert
  | skippedUnmounted
deriving DecidableEq

/-- Toast shown when no authenticated user is resolved. -/
def unauthToast : Toast :=
  ⟨"Erreur", "Vous devez être connecté pour signaler un document", true⟩

/-- Toast shown by the `catch` block of `onSubmit`. -/
def genericErrorToast : Toast :=
  ⟨"Erreur", "Une erreur est survenue lors de l'envoi du signalement", true⟩

/-- Toast shown on full success. -/
def successToast : Toast :=
  ⟨"Signalement envoyé", "Votre signalement a été enregistré avec succès", false⟩

/-- `file.name.split('.').pop()`. -/
def fileExt (f : JsFile) : String :=
  (f.name.splitOn ".").getLastD ""

/-- The storage key built by `onSubmit`: a random stem preserving the original
extension. -/
def storagePath (env : Env) (f : JsFile) : String :=
  env.randomName ++ "." ++ fileExt f

/-- `values.description || null`: JS `||` maps both an absent field and the
empty string to `null`, any other string is kept verbatim. -/
def orNull (s : Option String) : Option String :=
  match s with
  | none => none
  | some str => if str = "" then none else some str

/-- The row passed to `insert` on `reported_cards`. -/
def buildRecord (uid : String) (v : FormValues) (photoUrl : Option String) :
    ReportRecord :=
  ⟨uid, v.cardNumber, v.location, v.foundDate, orNull v.description, photoUrl,
   v.documentType⟩

/-- The tail of `onSubmit` from the database insert on: the insert call, then
either the `throw`/`catch` path or the success toast, the mounted-guarded
navigation, and in both cases the mounted-guarded `finally` clearing of the
in-flight flag. `soFar` is the trace accumulated before the insert. -/
def insertPhase (env : Env) (st1 : SubmitState) (soFar : List Effect)
    (rec : ReportRecord) : List Effect × SubmitState × Outcome :=
  let finEff : List Effect :=
    if env.mountedAtFinally then [Effect.setSubmitting false] else []
  let stFin : SubmitState :=
    if env.mountedAtFinally then { st1 with isSubmitting := false } else st1
  if env.insertError then
    (soFar ++ [Effect.dbInsert rec, Effect.consoleError,
               Effect.toast genericErrorToast] ++ finEff,
     stFin, Outcome.errInsert)
  else
    let navEff : List Effect :=
      if env.mountedAtNav then [Effect.navigate "/"] else []
    (soFar ++ [Effect.dbInsert rec, Effect.toast successToast] ++ navEff ++ finEff,
     stFin, Outcome.success)

/-- `onSubmit` from the `SignalerCarte` page: entry mounted check, set the
in-flight flag, resolve the user, conditionally upload the attached file and
resolve its public URL, insert the record, toast and navigate on success;
errors are caught, logged and toasted; `finally` clears the in-flight flag
when still mounted. Returns the effect trace, the final page state and the
terminal outcome. -/
def onSubmit (env : Env) (st : SubmitState) : List Effect × SubmitState × Outcome :=
  if env.mountedAtEntry = false then ([], st, Outcome.skippedUnmounted)
  else
    let st1 : SubmitState := { st with isSubmitting := true }
    let finEff : List Effect :=
      if env.mountedAtFinally then [Effect.setSubmitting false] else []
    let stFin : SubmitState :=
      if env.mountedAtFinally then { st1 with isSubmitting := false } else st1
    let pre : List Effect := [Effect.setSubmitting true, Effect.authGetUser]
    match env.authUser with
    | none =>
        (pre ++ [Effect.toast unauthToast] ++ finEff, stFin,
         Outcome.errUnauthenticated)
    | some uid =>
        match st.file with
        | some f =>
            let path := storagePath env f
            let upl : List Effect := [Effect.storageUpload "card_photos" path f]
            if env.uploadError then
              (pre ++ upl ++ [Effect.consoleError, Effect.toast genericErrorToast]
                 ++ finEff, stFin, Outcome.errUpload)
            else
              insertPhase env st1
                (pre ++ upl ++ [Effect.storageGetPublicUrl "card_photos" path])
                (buildRecord uid st.values (some env.publicUrl))
        | none =>
            insertPhase env st1 pre (buildRecord uid st.values none)

/-- The `cardNumber` schema checks: `.min(1)` and `.regex(/^\d+$/)` (JS `\d`
is `[0-9]`, anchors make the pattern match the whole string), expressed over
the string's character list. -/
def cardNumberCheck (s : String) : Bool :=
  !s.data.isEmpty && s.data.all Char.isDigit

/-- `formSchema` evaluated on a submit attempt: non-empty `documentType`,
`cardNumber` (plus digits-only), `location`, `foundDate`; `description` is
unconstrained. -/
def validateForm (v : FormValues) : Bool :=
  !v.documentType.isEmpty && cardNumberCheck v.cardNumber &&
  !v.location.isEmpty && !v.foundDate.isEmpty

/-- `form.handleSubmit(onSubmit)`: the resolver evaluates `formSchema` and
invokes `onSubmit` only when it passes; `none` means the workflow was never
entered. -/
def handleSubmit (env : Env) (st : SubmitState) :
    Option (List Effect × SubmitState × Outcome) :=
  if validateForm st.values then some (onSubmit env st) else none

/-- Number of toast notifications in a trace. -/
def toastCount (tr : List Effect) : Nat :=
  tr.countP fun e =>
    match e with
    | Effect.toast _ => true
    | _ => false

/-- Database inserts occurring in a trace. -/
def dbInserts (tr : List Effect) : List Effect :=
  tr.filter fun e =>
    match e with
    | Effect.dbInsert _ => true
    | _ => false

/-- Concrete fully valid form values used by witnesses. -/
def vals0 : FormValues := ⟨"id", "123", "Dakar", "2026-01-01", some ""⟩

/-- A concrete valid 2 MiB JPEG. -/
def jpeg2MiB : JsFile := ⟨"photo.jpg", "image/jpeg", 2097152⟩

/-- Collaborator environment where every step succeeds and the view stays
mounted. -/
def envOk : Env := ⟨true, true, true, some "u1", false, "https://cdn/x.jpg", false, "0.5"⟩

/-- Environment where no authenticated identity is resolved. -/
def envNoAuth : Env := ⟨true, true, true, none, false, "https://cdn/x.jpg", false, "0.5"⟩

/-- Environment where the object-storage upload fails. -/
def envUploadFail : Env := ⟨true, true, true, some "u1", true, "https://cdn/x.jpg", false, "0.5"⟩

/-- Environment where the view is torn down during the awaits: mounted at
entry, unmounted at the navigation check and at the finally check. -/
def envTornDown : Env := ⟨true, false, false, some "u1", false, "https://cdn/x.jpg", false, "0.5"⟩

/-- Submission state with no attached file. -/
def stNoFile : SubmitState := ⟨false, none, vals0⟩

/-- Submission state with an attached 2 MiB JPEG. -/
def stWithFile : SubmitState := ⟨false, some jpeg2MiB, vals0⟩

/-- C2: with no authenticated identity, `onSubmit` emits the Unauthenticated
toast, performs no object-storage upload and no database insert, and ends with
the Unauthenticated outcome. -/
theorem C2_unauthenticated_aborts (env : Env) (st : SubmitState)
    (hm : env.mountedAtEntry = true) (ha : env.authUser = none) :
    Effect.toast unauthToast ∈ (onSubmit env st).1 ∧
    networkWrites (onSubmit env st).1 = [] ∧
    (onSubmit env st).2.2 = Outcome.errUnauthenticated := by
  cases hf : env.mountedAtFinally <;>
    simp [onSubmit, hm, ha, hf, networkWrites]

/-- Witness for C2 at a concrete environment and state. -/
theorem C2_unauthenticated_aborts_witness :
    Effect.toast unauthToast ∈ (onSubmit envNoAuth stNoFile).1 ∧
    networkWrites (onSubmit envNoAuth stNoFile).1 = [] ∧
    (onSubmit envNoAuth stNoFile).2.2 = Outcome.errUnauthenticated :=
  C2_unauthenticated_aborts envNoAuth stNoFile rfl rfl

/-- C3: with an attached file whose upload fails, `onSubmit` never calls the
database insert and ends with the UploadFailed outcome. -/
theorem C3_upload_failure_no_insert (env : Env) (st : SubmitState) (uid : String)
    (f : JsFile) (hm : env.mountedAtEntry = true) (ha : env.authUser = some uid)
    (hfl : st.file = some f) (he : env.uploadError = true) :
    dbInserts (onSubmit env st).1 = [] ∧
    (onSubmit env st).2.2 = Outcome.errUpload := by
  cases hf : env.mountedAtFinally <;>
    simp [onSubmit, hm, ha, hfl, he, hf, dbInserts]

/-- Witness for C3 at a concrete environment and state. -/
theorem C3_upload_failure_no_insert_witness :
    dbInserts (onSubmit envUploadFail stWithFile).1 = [] ∧
    (onSubmit envUploadFail stWithFile).2.2 = Outcome.errUpload :=
  C3_upload_failure_no_insert envUploadFail stWithFile "u1" jpeg2MiB rfl rfl rfl rfl

/-- C4: with a valid form, no attached file, an identity present and a
successful insert, `onSubmit` shows the "Signalement envoyé" toast, navigates
to the home route, and the single inserted record has no photo URL. -/
theorem C4_success_without_file (env : Env) (st : SubmitState) (uid : String)
    (hm : env.mountedAtEntry = true) (hn : env.mountedAtNav = true)
    (ha : env.authUser = some uid) (hfl : st.file = none)
    (hi : env.insertError = false) :
    Effect.toast successToast ∈ (onSubmit env st).1 ∧
    Effect.navigate "/" ∈ (onSubmit env st).1 ∧
    dbInserts (onSubmit env st).1 = [Effect.dbInsert (buildRecord uid st.values none)] ∧
    (buildRecord uid st.values none).photo_url = none := by
  cases hf : env.mountedAtFinally <;>
    simp [onSubmit, insertPhase, hm, hn, ha, hfl, hi, hf, dbInserts, buildRecord]

/-- Witness for C4 at a concrete environment and state. -/
theorem C4_success_without_file_witness :
    Effect.toast successToast ∈ (onSubmit envOk stNoFile).1 ∧
    Effect.navigate "/" ∈ (onSubmit envOk stNoFile).1 ∧
    dbInserts (onSubmit envOk stNoFile).1 = [Effect.dbInsert (buildRecord "u1" stNoFile.values none)] ∧
    (buildRecord "u1" stNoFile.values none).photo_url = none :=
  C4_success_without_file envOk stNoFile "u1" rfl rfl rfl rfl rfl

/-- C5: when a mounted submission ends in any of the three errors, exactly one
toast is emitted, the field values and file selection are unchanged, and the
in-flight flag ends cleared. -/
theorem C5_error_restores_state (env : Env) (st : SubmitState)
    (hm : env.mountedAtEntry = true) (hf : env.mountedAtFinally = true)
    (ho : (onSubmit env st).2.2 = Outcome.errUnauthenticated ∨
          (onSubmit env st).2.2 = Outcome.errUpload ∨
          (onSubmit env st).2.2 = Outcome.errInsert) :
    toastCount (onSubmit env st).1 = 1 ∧
    (onSubmit env st).2.1.values = st.values ∧
    (onSubmit env st).2.1.file = st.file ∧
    (onSubmit env st).2.1.isSubmitting = false := by
  rcases env with ⟨m0, mn, mf, au, ue, pu, ie, rn⟩
  rcases st with ⟨sub, fl, vals⟩
  simp only at hm hf
  subst hm hf
  cases au <;> cases fl <;> cases ue <;> cases ie <;>
    simp_all [onSubmit, insertPhase, toastCount, List.countP_append,
      List.countP_cons, List.countP_nil]

/-- Witness for C5 at a concrete failing environment (no identity). -/
theorem C5_error_restores_state_witness :
    toastCount (onSubmit envNoAuth stWithFile).1 = 1 ∧
    (onSubmit envNoAuth stWithFile).2.1.values = stWithFile.values ∧
    (onSubmit envNoAuth stWithFile).2.1.file = stWithFile.file ∧
    (onSubmit envNoAuth stWithFile).2.1.isSubmitting = false :=
  C5_error_restores_state envNoAuth stWithFile rfl rfl (Or.inl rfl)

/-- C6 (code bug): the widget performs no network write and does invoke the
callback with the validated file, but it wraps the file in a synthetic change
event while the page's `handleFileChange` stores its argument directly, so the
attached-file state after an accepted drop is the event wrapper object, not
the `File` itself — the widget's declared callback type (`ChangeEvent`) and
the page's handler type (`File | null`) contradict each other. -/
theorem C6_callback_payload_mismatch :
    (attachViaWidget true FileSlot.noFile jpeg2MiB).2 =
        FileSlot.eventObject ⟨[jpeg2MiB]⟩ ∧
    (attachViaWidget true FileSlot.noFile jpeg2MiB).2 ≠ FileSlot.attached jpeg2MiB ∧
    networkWrites (attachViaWidget true FileSlot.noFile jpeg2MiB).1 = [] ∧
    (validateAndHandleFile jpeg2MiB).2 = some ⟨[jpeg2MiB]⟩ := by
  decide

/-- C7: a `cardNumber` that is empty or contains a non-digit character fails
the schema, so `handleSubmit` never enters the workflow; "123" passes the
`cardNumber` checks while "12a3" fails them. -/
theorem C7_schema_blocks_nondigit (env : Env) (st : SubmitState)
    (h : st.values.cardNumber = "" ∨
         ∃ c ∈ st.values.cardNumber.data, c.isDigit = false) :
    handleSubmit env st = none ∧
    cardNumberCheck "123" = true ∧ cardNumberCheck "12a3" = false := by
  refine ⟨?_, by decide, by decide⟩
  have hc : cardNumberCheck st.values.cardNumber = false := by
    rcases h with h | ⟨c, hmem, hdig⟩
    · rw [h]; decide
    · have hall : st.values.cardNumber.data.all Char.isDigit = false := by
        by_contra hcon
        rw [Bool.not_eq_false, List.all_eq_true] at hcon
        have hd := hcon c hmem
        rw [hdig] at hd
        exact Bool.false_ne_true hd
      simp [cardNumberCheck, hall]
  simp [handleSubmit, validateForm, hc]

/-- Witness for C7: the concrete card number "12a3" blocks submission. -/
theorem C7_schema_blocks_nondigit_witness :
    handleSubmit envOk ⟨false, none, ⟨"id", "12a3", "Dakar", "2026-01-01", some ""⟩⟩ = none ∧
    cardNumberCheck "123" = true ∧ cardNumberCheck "12a3" = false :=
  C7_schema_blocks_nondigit envOk ⟨false, none, ⟨"id", "12a3", "Dakar", "2026-01-01", some ""⟩⟩
    (by decide)

/-- C8: a file the validator rejects leaves the previously attached state
unchanged and the owner's callback is not invoked. -/
theorem C8_reject_preserves_attachment (mounted : Bool) (st : FileSlot)
    (f : JsFile) (r : RejectReason)
    (h : validateFile f = FileValidation.reject r) :
    (attachViaWidget mounted st f).2 = st ∧ (validateAndHandleFile f).2 = none := by
  by_cases h1 : f.type ∉ allowedTypes
  · simp [attachViaWidget, validateAndHandleFile, h1]
  · by_cases h2 : f.size > maxSize
    · simp [attachViaWidget, validateAndHandleFile, h1, h2]
    · exfalso
      simp [validateFile, h1, h2] at h

/-- Witness for C8: rejecting an oversized JPEG keeps the previously attached
file. -/
theorem C8_reject_preserves_attachment_witness :
    (attachViaWidget true (FileSlot.attached jpeg2MiB) ⟨"big.jpg", "image/jpeg", 6000000⟩).2 =
        FileSlot.attached jpeg2MiB ∧
    (validateAndHandleFile ⟨"big.jpg", "image/jpeg", 6000000⟩).2 = none :=
  C8_reject_preserves_attachment true (FileSlot.attached jpeg2MiB)
    ⟨"big.jpg", "image/jpeg", 6000000⟩ RejectReason.tooLarge (by decide)

/-- C9: once the view is torn down during the awaits (unmounted at the
pre-navigation and finally checks), `onSubmit`'s pending continuations perform
no navigation and no clearing of the in-flight flag, `onSubmit` never mutates
the attached file, and an unmounted `handleFileChange` leaves the file state
unchanged. The only unguarded flag write, `setIsSubmitting(true)`, runs in the
synchronous prologue behind the entry mounted check, i.e. before teardown. -/
theorem C9_teardown_guards (env : Env) (st : SubmitState)
    (hn : env.mountedAtNav = false) (hf : env.mountedAtFinally = false) :
    (∀ route, Effect.navigate route ∉ (onSubmit env st).1) ∧
    Effect.setSubmitting false ∉ (onSubmit env st).1 ∧
    (onSubmit env st).2.1.file = st.file ∧
    (∀ arg stSlot : FileSlot, handleFileChange false arg stSlot = stSlot) := by
  rcases env with ⟨m0, mn, mf, au, ue, pu, ie, rn⟩
  rcases st with ⟨sub, fl, vals⟩
  simp only at hn hf
  subst hn hf
  cases m0 <;> cases au <;> cases fl <;> cases ue <;> cases ie <;>
    simp_all [onSubmit, insertPhase, handleFileChange]

/-- Witness for C9 at a concrete torn-down environment. -/
theorem C9_teardown_guards_witness :
    Effect.navigate "/" ∉ (onSubmit envTornDown stNoFile).1 ∧
    Effect.setSubmitting false ∉ (onSubmit envTornDown stNoFile).1 ∧
    (onSubmit envTornDown stNoFile).2.1.file = stNoFile.file ∧
    handleFileChange false (FileSlot.attached jpeg2MiB) FileSlot.noFile = FileSlot.noFile := by
  have h := C9_teardown_guards envTornDown stNoFile rfl rfl
  exact ⟨h.1 "/", h.2.1, h.2.2.1, h.2.2.2 (FileSlot.attached jpeg2MiB) FileSlot.noFile⟩

/-- C10: every record inserted by a successful submission carries `null` as
description when the form's description is absent or empty, and the verbatim
string when it is non-empty. -/
theorem C10_description_null_or_verbatim (env : Env) (st : SubmitState)
    (hs : (onSubmit env st).2.2 = Outcome.success) :
    ∀ r : ReportRecord, Effect.dbInsert r ∈ (onSubmit env st).1 →
      ((st.values.description = none ∨ st.values.description = some "") →
        r.description = none) ∧
      (∀ s : String, st.values.description = some s → s ≠ "" →
        r.description = some s) := by
  rcases env with ⟨m0, mn, mf, au, ue, pu, ie, rn⟩
  rcases st with ⟨sub, fl, vals⟩
  rcases vals with ⟨dt, cn, loc, fd, desc⟩
  cases m0 <;> cases au <;> cases fl <;> cases ue <;> cases ie <;> cases desc <;>
    simp_all [onSubmit, insertPhase, buildRecord, orNull]

/-- Witness for C10: the empty-string description of `vals0` is inserted as
`null` on a concrete successful submission. -/
theorem C10_description_null_or_verbatim_witness :
    (buildRecord "u1" stNoFile.values none).description = none :=
  ((C10_description_null_or_verbatim envOk stNoFile rfl)
      (buildRecord "u1" stNoFile.values none) (by decide)).1 (Or.inr rfl)
